import Mathlib

/-!
Verification of the GM-PHD tracker core (Stone-Soup fork).

The development shallowly embeds the Python source files

  src/stonesoup/hypothesiser/distance.py        (DistanceHypothesiser.hypothesise)
  src/stonesoup/hypothesiser/gaussianmixture.py (GaussianMixtureHypothesiser.hypothesise)
  src/stonesoup/updater/gaussianmixture.py      (GaussianMixtureUpdater.update)
  src/stonesoup/tracker/gaussianmixture.py      (tracks property, end_tracks,
                                                 estimated_number_of_targets)
  src/stonesoup/tracker/gmphd.py                (GMPHDTargetTracker.tracks_gen)

into Lean.  Machine reals are modelled by exact rationals (the spec speaks of
exact arithmetic for the weight identities); distances live in WithTop Rat so
that the default missed_distance (plus infinity) is representable.  Collaborator
code that is out of scope per the spec (predictor, single-target Kalman updater,
multivariate-normal density, measure, reducer) is passed in as opaque-free
function parameters inside context structures.  Fallible Python statements
(attribute errors, unbound locals, unsupported operand types, unbounded
recursion) are embedded in the Except monad.
-/

/-- Modelled from the spec: a measurement model identifier.  The measurement
model itself is an external collaborator (spec section 1, out of scope); the
hypothesiser only passes it through, so an abstract identifier suffices. -/
abbrev MeasurementModel : Type := Nat

/-- Modelled from the spec: a Detection (types.detection is not under src/).
Per spec section 3 and 6 a real detection carries a state vector, a timestamp
and a measurement model. -/
structure Detection where
  state_vector : List Rat
  timestamp : Int
  measurement_model : MeasurementModel
deriving DecidableEq

/-- Modelled from the spec: a measurement is either a real Detection or the
MissedDetection sentinel carrying only the timestamp (spec section 3). -/
inductive Meas where
  | missed (timestamp : Int)
  | det (d : Detection)
deriving DecidableEq

/-- True iff the measurement is a real detection (Python: not an instance of
MissedDetection). -/
def Meas.isDet : Meas → Bool
  | .missed _ => false
  | .det _ => true

/-- True iff the measurement is the missed-detection sentinel (Python:
isinstance(x.measurement, MissedDetection)). -/
def Meas.isMissed : Meas → Bool
  | .missed _ => true
  | .det _ => false

/-- Modelled from the spec: a Gaussian measurement prediction exposing mean and
covariance (spec section 6, single-target updater contract). -/
structure MeasurementPrediction where
  mean : List Rat
  covar : List (List Rat)
deriving DecidableEq

/-- Modelled from the spec: a tagged weighted Gaussian component
(types.TaggedWeightedGaussianState is not under src/): mean, covariance,
weight, stable tag, timestamp (spec section 3).  Tag 0 is the reserved birth
sentinel; fresh tags (uuid4 in the source) are drawn from a supply. -/
structure TaggedWeightedGaussianState where
  state_vector : List Rat
  covar : List (List Rat)
  weight : Rat
  tag : Nat
  timestamp : Int
deriving DecidableEq

/-- Modelled from the spec: a single distance hypothesis bundling
(prediction, measurement, distance, measurement prediction); orderable by
distance (spec section 3).  The type defines no arithmetic: in particular no
product with a scalar exists, so the Python expression
hypothesis * float raises TypeError. -/
structure SingleDistanceHypothesis where
  prediction : TaggedWeightedGaussianState
  measurement : Meas
  distance : WithTop Rat
  measurement_prediction : MeasurementPrediction
deriving DecidableEq

/-- Collaborators and configuration of DistanceHypothesiser
(src/stonesoup/hypothesiser/distance.py): the predictor, the measurement
predictor of the underlying updater, the measure, the missed_distance gate and
the include_all flag.  Predictor and measure are external collaborators (spec
section 1) passed as functions. -/
structure DistCtx where
  predict : TaggedWeightedGaussianState → Int → TaggedWeightedGaussianState
  predict_measurement :
    TaggedWeightedGaussianState → Option MeasurementModel → MeasurementPrediction
  measure : MeasurementPrediction → Detection → WithTop Rat
  missed_distance : WithTop Rat
  include_all : Bool

/-- Descending comparison on hypotheses used by the final
sorted(hypotheses, reverse=True) of DistanceHypothesiser.hypothesise: hypothesis
a may stand before b iff the distance of b is at most the distance of a. -/
def hypDescLE (a b : SingleDistanceHypothesis) : Prop :=
  b.distance ≤ a.distance

instance : DecidableRel hypDescLE := fun a b =>
  inferInstanceAs (Decidable (b.distance ≤ a.distance))

instance : IsTotal SingleDistanceHypothesis hypDescLE :=
  ⟨fun a b => by unfold hypDescLE; exact le_total b.distance a.distance⟩

instance : IsTrans SingleDistanceHypothesis hypDescLE :=
  ⟨fun _ _ _ h1 h2 => le_trans h2 h1⟩

namespace DistanceHypothesiser

/-- The missed-detection hypothesis built first by
DistanceHypothesiser.hypothesise (distance.py lines 71-82): common prediction
to the call timestamp, measurement prediction without a model, the
MissedDetection sentinel, and the configured missed_distance as distance. -/
def missedHypothesis (ctx : DistCtx) (track : TaggedWeightedGaussianState)
    (timestamp : Int) : SingleDistanceHypothesis :=
  let prediction := ctx.predict track timestamp
  { prediction := prediction
    measurement := .missed timestamp
    distance := ctx.missed_distance
    measurement_prediction := ctx.predict_measurement prediction none }

/-- The true-detection loop of DistanceHypothesiser.hypothesise (distance.py
lines 84-103): for each detection re-predict to the detection timestamp,
compute its measurement prediction under the detection measurement model and
the distance, and admit the hypothesis iff include_all or
distance < missed_distance. -/
def realHypotheses (ctx : DistCtx) (track : TaggedWeightedGaussianState) :
    List Detection → List SingleDistanceHypothesis
  | [] => []
  | d :: ds =>
    let prediction := ctx.predict track d.timestamp
    let mp := ctx.predict_measurement prediction (some d.measurement_model)
    let dist := ctx.measure mp d
    if ctx.include_all || dist < ctx.missed_distance then
      { prediction := prediction
        measurement := .det d
        distance := dist
        measurement_prediction := mp } :: realHypotheses ctx track ds
    else
      realHypotheses ctx track ds

/-- DistanceHypothesiser.hypothesise (distance.py lines 43-105): the missed
hypothesis followed by the admitted true-detection hypotheses, returned through
sorted(hypotheses, reverse=True).  Python sorted is stable and with
reverse=True keeps ties in input order, which is exactly the stable insertion
sort by the descending comparison hypDescLE. -/
def hypothesise (ctx : DistCtx) (track : TaggedWeightedGaussianState)
    (detections : List Detection) (timestamp : Int) :
    List SingleDistanceHypothesis :=
  List.insertionSort hypDescLE
    (missedHypothesis ctx track timestamp :: realHypotheses ctx track detections)

end DistanceHypothesiser

namespace GaussianMixtureHypothesiser

/-- Survival thinning applied by the component loop of
GaussianMixtureHypothesiser.hypothesise (gaussianmixture.py line 68):
component.weight *= prob_survival, a read-then-overwrite of the weight field
only. -/
def survived (prob_survival : Rat) (c : TaggedWeightedGaussianState) :
    TaggedWeightedGaussianState :=
  { c with weight := c.weight * prob_survival }

/-- The component loop of GaussianMixtureHypothesiser.hypothesise
(gaussianmixture.py lines 65-72): each component weight is first overwritten
with weight * prob_survival, then the underlying hypothesiser is run on the
mutated component; groups with zero hypotheses are skipped.  The function
returns the mutated component list together with the per-component groups,
making the in-place mutation of the caller-owned mixture explicit. -/
def componentLoop
    (hypo : TaggedWeightedGaussianState → List Detection → Int →
      List SingleDistanceHypothesis)
    (prob_survival : Rat) (detections : List Detection) (timestamp : Int) :
    List TaggedWeightedGaussianState →
      List TaggedWeightedGaussianState × List (List SingleDistanceHypothesis)
  | [] => ([], [])
  | c :: cs =>
    let c2 := survived prob_survival c
    let g := hypo c2 detections timestamp
    let rest := componentLoop hypo prob_survival detections timestamp cs
    (c2 :: rest.1, if g.length > 0 then g :: rest.2 else rest.2)

/-- GaussianMixtureHypothesiser.hypothesise (gaussianmixture.py lines 43-97).
With order_by_detection false the per-component groups are returned as built.
With order_by_detection true all single hypotheses are flattened in component
order, the missed hypotheses are collected by the MissedDetection instance
check, one group per detection keeps exactly the single hypotheses whose
measurement equals that detection, and the missed group is appended last.  The
first projection of the result is the caller-owned component list after the
in-place survival overwrite. -/
def hypothesise
    (hypo : TaggedWeightedGaussianState → List Detection → Int →
      List SingleDistanceHypothesis)
    (prob_survival : Rat) (order_by_detection : Bool)
    (components : List TaggedWeightedGaussianState)
    (detections : List Detection) (timestamp : Int) :
    List TaggedWeightedGaussianState × List (List SingleDistanceHypothesis) :=
  let r := componentLoop hypo prob_survival detections timestamp components
  if order_by_detection then
    let single_hypothesis_list := r.2.flatten
    let miss_detections_hypothesis :=
      single_hypothesis_list.filter (fun x => x.measurement.isMissed)
    let reordered_hypotheses :=
      detections.map (fun detection =>
        single_hypothesis_list.filter (fun x => x.measurement == Meas.det detection))
    (r.1, reordered_hypotheses ++ [miss_detections_hypothesis])
  else
    (r.1, r.2)

end GaussianMixtureHypothesiser

/-- Result of the single-target Kalman update (spec section 6: update on a
single hypothesis yields a posterior with mean, covariance and timestamp).
The Kalman updater itself is an external collaborator. -/
structure KalmanPosterior where
  mean : List Rat
  covar : List (List Rat)
  timestamp : Int

/-- Collaborators and configuration of GaussianMixtureUpdater
(src/stonesoup/updater/gaussianmixture.py): probability of detection, clutter
spatial density, the multivariate-normal density (scipy
multivariate_normal.pdf, external), the underlying single-target Kalman
updater (external) and the fresh tag supply (uuid.uuid4: call number n of the
supply returns fresh n). -/
structure UpdCtx where
  prob_of_detection : Rat
  clutter_spatial_density : Rat
  pdf : List Rat → List Rat → List (List Rat) → Rat
  kupdate : SingleDistanceHypothesis → KalmanPosterior
  fresh : Nat → Nat

namespace GaussianMixtureUpdater

/-- One iteration of the inner detection loop of GaussianMixtureUpdater.update
(updater/gaussianmixture.py lines 60-86).  Accessing
measurement.state_vector on a MissedDetection raises AttributeError, as the
sentinel carries only a timestamp.  Otherwise q is the density of the
measurement under the measurement prediction, the raw weight is
prob_of_detection * prediction.weight * q, the Kalman posterior supplies mean,
covariance and timestamp, the tag is the prediction tag, and a fresh tag is
minted iff that tag is the birth sentinel 0 (k counts uuid4 calls). -/
def hypStep (ctx : UpdCtx) (k : Nat) (h : SingleDistanceHypothesis) :
    Except String (TaggedWeightedGaussianState × Rat × Nat) :=
  match h.measurement with
  | .missed _ => .error "AttributeError: MissedDetection has no state_vector"
  | .det d =>
    let q := ctx.pdf d.state_vector h.measurement_prediction.mean
      h.measurement_prediction.covar
    let new_weight := ctx.prob_of_detection * h.prediction.weight * q
    let post := ctx.kupdate h
    if h.prediction.tag = 0 then
      .ok (⟨post.mean, post.covar, new_weight, ctx.fresh k, post.timestamp⟩,
        new_weight, k + 1)
    else
      .ok (⟨post.mean, post.covar, new_weight, h.prediction.tag, post.timestamp⟩,
        new_weight, k)

/-- The inner detection loop over one group (updater/gaussianmixture.py lines
60-86): emits the updated components in order and returns the sum of the raw
weights accumulated into weight_sum, threading the uuid4 call counter. -/
def groupLoop (ctx : UpdCtx) (k : Nat) :
    List SingleDistanceHypothesis →
      Except String (List TaggedWeightedGaussianState × Rat × Nat)
  | [] => .ok ([], 0, k)
  | h :: hs => do
    let (c, w, k1) ← hypStep ctx k h
    let (cs, s, k2) ← groupLoop ctx k1 hs
    .ok (c :: cs, w + s, k2)

/-- One detection group of GaussianMixtureUpdater.update (lines 54-89):
weight_sum is initialised to clutter_spatial_density and accumulates the raw
weights; the second loop (lines 87-89) divides every emitted weight of the
group by the final weight_sum.  Returns the normalised components, the final
weight_sum and the uuid4 counter. -/
def processGroup (ctx : UpdCtx) (k : Nat) (g : List SingleDistanceHypothesis) :
    Except String (List TaggedWeightedGaussianState × Rat × Nat) := do
  let (cs, s, k1) ← groupLoop ctx k g
  let weight_sum := ctx.clutter_spatial_density + s
  .ok (cs.map (fun c => { c with weight := c.weight / weight_sum }), weight_sum, k1)

/-- The outer detection loop of GaussianMixtureUpdater.update (lines 54-89)
over all groups except the last.  The Python variable named component is the
loop variable of the normalisation loop (line 87): after a group with a
non-empty emission it refers to the last component emitted for that group, and
it stays unbound if every group so far emitted nothing.  That stale binding is
threaded explicitly because the missed-detection branch reads it. -/
def detLoop (ctx : UpdCtx) :
    List (List SingleDistanceHypothesis) → Nat →
      Option TaggedWeightedGaussianState →
      Except String
        (List TaggedWeightedGaussianState ×
          Option TaggedWeightedGaussianState × Nat)
  | [], k, stale => .ok ([], stale, k)
  | g :: gs, k, stale => do
    let (cs, _ws, k1) ← processGroup ctx k g
    let stale1 := if cs.isEmpty then stale else cs.getLast?
    let (rest, stale2, k2) ← detLoop ctx gs k1 stale1
    .ok (cs ++ rest, stale2, k2)

/-- The missed-detection loop of GaussianMixtureUpdater.update (lines 90-100).
The guard reads the stale variable component inherited from the preceding
normalisation loop: if it was never bound the statement raises
UnboundLocalError.  When the guard passes, the constructor argument
weight = missed_detected_hypotheses * (1 - prob_of_detection) multiplies the
hypothesis object itself by a float; SingleDistanceHypothesis defines no such
product, so the statement raises TypeError.  When the stale component carries
tag 0 the body is skipped and the stale binding is unchanged. -/
def missedLoop (ctx : UpdCtx) (stale : Option TaggedWeightedGaussianState)
    (acc : List TaggedWeightedGaussianState) :
    List SingleDistanceHypothesis →
      Except String (List TaggedWeightedGaussianState)
  | [] => .ok acc
  | _h :: hs =>
    match stale with
    | none =>
      .error "UnboundLocalError: local variable component referenced before assignment"
    | some c =>
      if c.tag = 0 then
        missedLoop ctx stale acc hs
      else
        .error "TypeError: unsupported operand types for mul: SingleDistanceHypothesis and float"

/-- GaussianMixtureUpdater.update (updater/gaussianmixture.py lines 37-102):
runs the detection loop over hypotheses[0..len-2], then the missed loop over
hypotheses[-1] (an empty hypothesis list raises IndexError there). -/
def update (ctx : UpdCtx) (hypotheses : List (List SingleDistanceHypothesis)) :
    Except String (List TaggedWeightedGaussianState) := do
  let (updated_components, stale, _k) ← detLoop ctx hypotheses.dropLast 0 none
  match hypotheses.getLast? with
  | none => .error "IndexError: list index out of range"
  | some lastGroup => missedLoop ctx stale updated_components lastGroup

end GaussianMixtureUpdater

/-- Modelled from the spec: a track (types.track is not under src/): an id, an
ordered sequence of tagged components, and an active flag (spec section 3). -/
structure Track where
  id : Nat
  states : List TaggedWeightedGaussianState
  active : Bool
deriving DecidableEq

namespace GaussianMixtureMultiTargetTracker

/-- The tracks property of GaussianMixtureMultiTargetTracker
(tracker/gaussianmixture.py lines 150-170).  In the class body the property
descriptor shadows the dict-valued attribute of the same name declared at
lines 34-38, so every read of self.tracks enters this getter.  The getter is a
generator whose body iterates self.tracks, that is, a fresh instance of this
very generator, so consuming it recurses without a base case; fuel bounds the
Python recursion depth and exhaustion is RecursionError.  Were an inner level
ever to yield, the outer level would unpack each yielded Track as a pair
(key, track) and raise TypeError, which the non-empty branch records. -/
def tracksProperty (store : List (Nat × Track)) :
    Nat → Except String (List Track)
  | 0 => .error "RecursionError: maximum recursion depth exceeded"
  | fuel + 1 => do
    let inner ← tracksProperty store fuel
    match inner with
    | [] => .ok []
    | _ :: _ => .error "TypeError: cannot unpack non-iterable Track object"

/-- GaussianMixtureMultiTargetTracker.end_tracks (tracker/gaussianmixture.py
lines 200-215): builds the component tag list, then iterates self.tracks,
which evaluates the self-referential tracks property.  Had the iteration
produced anything, each item would be unpacked as a pair (tag, component); the
match mirrors that dead continuation. -/
def end_tracks (mixture : List TaggedWeightedGaussianState)
    (store : List (Nat × Track)) (fuel : Nat) :
    Except String (List (Nat × Track)) := do
  let _component_tags := mixture.map (fun c => c.tag)
  let iterated ← tracksProperty store fuel
  match iterated with
  | [] => .ok store
  | _ :: _ => .error "TypeError: cannot unpack non-iterable Track object"

/-- GaussianMixtureMultiTargetTracker.estimated_number_of_targets
(tracker/gaussianmixture.py lines 217-227): the sum of the component weights
of the current mixture, and 0 when the mixture is empty (falsy). -/
def estimated_number_of_targets
    (mixture : List TaggedWeightedGaussianState) : Rat :=
  if mixture.isEmpty then 0 else (mixture.map (fun c => c.weight)).sum

end GaussianMixtureMultiTargetTracker

/-- Collaborators of the tracker step (tracker/gmphd.py): the hypothesiser
plug-point (spec section 4.5 step 2) and the mixture reducer (external,
spec section 1). -/
structure TrackerCtx where
  upd : UpdCtx
  hypothesise : List TaggedWeightedGaussianState → List Detection → Int →
    List (List SingleDistanceHypothesis)
  reduce : List TaggedWeightedGaussianState → List TaggedWeightedGaussianState

namespace GMPHDTargetTracker

/-- The statement tracks = self.tracks() of GMPHDTargetTracker.tracks_gen
(tracker/gmphd.py line 38).  Reading self.tracks returns the generator object
produced by the shadowing tracks property getter without running its body;
calling that generator object raises TypeError unconditionally. -/
def callTracksProperty (_store : List (Nat × Track)) :
    Except String (List Track) :=
  .error "TypeError: generator object is not callable"

/-- One loop iteration of GMPHDTargetTracker.tracks_gen (tracker/gmphd.py
lines 20-39) for a batch (time, detections): stamp the birth component and
append it to the mixture, run the hypothesiser, replace the mixture with the
updater output, reduce it, evaluate tracks = self.tracks(), and yield
(time, tracks, estimated_number_of_targets).  The result is the yielded
triple of the iteration, or the exception that escapes it. -/
def tracksGenStep (ctx : TrackerCtx) (birth : TaggedWeightedGaussianState)
    (mixture : List TaggedWeightedGaussianState)
    (store : List (Nat × Track)) (time : Int) (detections : List Detection) :
    Except String (Int × List Track × Rat) := do
  let birth_component := { birth with timestamp := time }
  let mixture1 := mixture ++ [birth_component]
  let hypotheses := ctx.hypothesise mixture1 detections time
  let updated ← GaussianMixtureUpdater.update ctx.upd hypotheses
  let reduced := ctx.reduce updated
  let tracks ← callTracksProperty store
  .ok (time, tracks,
    GaussianMixtureMultiTargetTracker.estimated_number_of_targets reduced)

end GMPHDTargetTracker

namespace GaussianMixtureUpdater

/-- The raw weight assigned to a single hypothesis by the detection branch of
GaussianMixtureUpdater.update (lines 66-71):
prob_of_detection * prediction.weight * q, where q is the density of the
detection state vector under the measurement prediction.  Zero in the missed
case, which the detection branch never reaches without raising. -/
def rawWeight (ctx : UpdCtx) (h : SingleDistanceHypothesis) : Rat :=
  match h.measurement with
  | .det d => ctx.prob_of_detection * h.prediction.weight *
      ctx.pdf d.state_vector h.measurement_prediction.mean
        h.measurement_prediction.covar
  | .missed _ => 0

/-- The final weight_sum of one detection group (lines 57 and 72):
clutter_spatial_density plus the sum of the raw weights of the group. -/
def weightSum (ctx : UpdCtx) (g : List SingleDistanceHypothesis) : Rat :=
  ctx.clutter_spatial_density + (g.map (rawWeight ctx)).sum

end GaussianMixtureUpdater

/-- A concrete updater context for evaluation: detection probability 1/2,
clutter density 1, constant density 2, a fixed Kalman posterior, and fresh
tags n + 100. -/
def uctxEx : UpdCtx :=
  { prob_of_detection := 1/2
    clutter_spatial_density := 1
    pdf := fun _ _ _ => 2
    kupdate := fun _ => ⟨[0], [[1]], 1⟩
    fresh := fun n => n + 100 }

/-- A concrete distance-hypothesiser context with the default
missed_distance of plus infinity, an identity predictor and a constant
measure. -/
def dctxEx : DistCtx :=
  { predict := fun c _ => c
    predict_measurement := fun c _ => ⟨c.state_vector, c.covar⟩
    measure := fun _ _ => (1 : WithTop Rat)
    missed_distance := ⊤
    include_all := false }

/-- A concrete mixture component with tag 3. -/
def cEx : TaggedWeightedGaussianState := ⟨[0], [[1]], 1, 3, 0⟩

/-- A concrete detection. -/
def dEx : Detection := ⟨[1], 1, 0⟩

/-- A concrete single hypothesis for a real detection, with the given
prediction tag and weight. -/
def hypDet (tag : Nat) (w : Rat) : SingleDistanceHypothesis :=
  { prediction := ⟨[0], [[1]], w, tag, 0⟩
    measurement := .det dEx
    distance := (1 : WithTop Rat)
    measurement_prediction := ⟨[0], [[1]]⟩ }

/-- A concrete missed-detection hypothesis, with the given prediction tag and
weight. -/
def hypMissed (tag : Nat) (w : Rat) : SingleDistanceHypothesis :=
  { prediction := ⟨[0], [[1]], w, tag, 0⟩
    measurement := .missed 1
    distance := ⊤
    measurement_prediction := ⟨[0], [[1]]⟩ }

/-- The distance hypothesiser always returns a non-empty group: the missed
hypothesis is emitted unconditionally and sorting preserves length. -/
theorem distanceHypothesise_ne_nil (ctx : DistCtx)
    (track : TaggedWeightedGaussianState) (detections : List Detection)
    (timestamp : Int) :
    DistanceHypothesiser.hypothesise ctx track detections timestamp ≠ [] := by
  unfold DistanceHypothesiser.hypothesise
  intro h
  have hlen := congrArg List.length h
  rw [List.length_insertionSort] at hlen
  simp at hlen

/-- C9: every group returned by DistanceHypothesiser.hypothesise is sorted by
descending distance (each hypothesis in the list has distance at least that of
every later one), and when missed_distance is plus infinity the
missed-detection hypothesis stands at the head of the group. -/
theorem C9_distance_group_sorted_descending (ctx : DistCtx)
    (track : TaggedWeightedGaussianState) (detections : List Detection)
    (timestamp : Int) :
    List.Sorted hypDescLE
      (DistanceHypothesiser.hypothesise ctx track detections timestamp) ∧
    (ctx.missed_distance = ⊤ →
      (DistanceHypothesiser.hypothesise ctx track detections timestamp).head? =
        some (DistanceHypothesiser.missedHypothesis ctx track timestamp)) := by
  constructor
  · exact List.sorted_insertionSort hypDescLE _
  · intro htop
    unfold DistanceHypothesiser.hypothesise
    rw [List.insertionSort_cons]
    · rfl
    · intro b _
      unfold hypDescLE
      simp [DistanceHypothesiser.missedHypothesis, htop]

/-- C9 witness: at a concrete context with missed_distance equal to plus
infinity, one component and one detection, the missed hypothesis heads the
returned group. -/
theorem C9_distance_group_sorted_descending_witness :
    (DistanceHypothesiser.hypothesise dctxEx cEx [dEx] 0).head? =
      some (DistanceHypothesiser.missedHypothesis dctxEx cEx 0) :=
  (C9_distance_group_sorted_descending dctxEx cEx [dEx] 0).2 rfl

/-- The first projection of the component loop: every caller-owned component
comes back with its weight overwritten by the survival product and nothing
else changed. -/
theorem componentLoop_fst
    (hypo : TaggedWeightedGaussianState → List Detection → Int →
      List SingleDistanceHypothesis)
    (ps : Rat) (dets : List Detection) (ts : Int)
    (comps : List TaggedWeightedGaussianState) :
    (GaussianMixtureHypothesiser.componentLoop hypo ps dets ts comps).1 =
      comps.map (GaussianMixtureHypothesiser.survived ps) := by
  induction comps with
  | nil => rfl
  | cons c cs ih =>
    simp only [GaussianMixtureHypothesiser.componentLoop, List.map_cons]
    rw [ih]

/-- Flattening the groups built by the component loop gives the same single
hypotheses as flattening the per-component results directly: skipping an
empty group loses nothing. -/
theorem componentLoop_snd_flatten
    (hypo : TaggedWeightedGaussianState → List Detection → Int →
      List SingleDistanceHypothesis)
    (ps : Rat) (dets : List Detection) (ts : Int)
    (comps : List TaggedWeightedGaussianState) :
    (GaussianMixtureHypothesiser.componentLoop hypo ps dets ts comps).2.flatten =
      (comps.map fun c =>
        hypo (GaussianMixtureHypothesiser.survived ps c) dets ts).flatten := by
  induction comps with
  | nil => rfl
  | cons c cs ih =>
    simp only [GaussianMixtureHypothesiser.componentLoop, List.map_cons,
      List.flatten_cons]
    by_cases hg : (hypo (GaussianMixtureHypothesiser.survived ps c) dets ts).length > 0
    · rw [if_pos hg, List.flatten_cons, ih]
    · have hnil : hypo (GaussianMixtureHypothesiser.survived ps c) dets ts = [] := by
        simpa using hg
      rw [if_neg hg, ih, hnil]
      simp

/-- When the underlying hypothesiser never returns an empty group, the
component loop keeps exactly one group per component, in input order. -/
theorem componentLoop_snd_of_ne_nil
    (hypo : TaggedWeightedGaussianState → List Detection → Int →
      List SingleDistanceHypothesis)
    (ps : Rat) (dets : List Detection) (ts : Int)
    (comps : List TaggedWeightedGaussianState)
    (hne : ∀ c, hypo c dets ts ≠ []) :
    (GaussianMixtureHypothesiser.componentLoop hypo ps dets ts comps).2 =
      comps.map fun c =>
        hypo (GaussianMixtureHypothesiser.survived ps c) dets ts := by
  induction comps with
  | nil => rfl
  | cons c cs ih =>
    simp only [GaussianMixtureHypothesiser.componentLoop, List.map_cons]
    rw [if_pos, ih]
    exact List.length_pos.mpr (hne _)

/-- C10: with order_by_detection false and DistanceHypothesiser underneath,
the Gaussian-mixture hypothesiser returns exactly one group per input
component, in input order, and every returned group is non-empty: the missed
hypothesis is emitted unconditionally, so the branch skipping empty groups
never fires. -/
theorem C10_one_group_per_component (dctx : DistCtx) (ps : Rat)
    (comps : List TaggedWeightedGaussianState) (dets : List Detection)
    (ts : Int) :
    (GaussianMixtureHypothesiser.hypothesise
        (DistanceHypothesiser.hypothesise dctx) ps false comps dets ts).2 =
      (comps.map fun c =>
        DistanceHypothesiser.hypothesise dctx
          (GaussianMixtureHypothesiser.survived ps c) dets ts) ∧
    (GaussianMixtureHypothesiser.hypothesise
        (DistanceHypothesiser.hypothesise dctx) ps false comps dets ts).2.all
      (fun g => !g.isEmpty) = true := by
  have hmain :
      (GaussianMixtureHypothesiser.hypothesise
          (DistanceHypothesiser.hypothesise dctx) ps false comps dets ts).2 =
        comps.map fun c =>
          DistanceHypothesiser.hypothesise dctx
            (GaussianMixtureHypothesiser.survived ps c) dets ts := by
    unfold GaussianMixtureHypothesiser.hypothesise
    simp only [Bool.false_eq_true, if_false]
    exact componentLoop_snd_of_ne_nil _ ps dets ts comps
      (fun c => distanceHypothesise_ne_nil dctx c dets ts)
  refine ⟨hmain, ?_⟩
  rw [hmain, List.all_eq_true]
  intro g hg
  rcases List.mem_map.mp hg with ⟨c, _, rfl⟩
  simp [List.isEmpty_iff, distanceHypothesise_ne_nil]

/-- C2: with order_by_detection true the Gaussian-mixture hypothesiser
returns, in order, one group per detection (in detection iteration order)
holding exactly the single hypotheses, across all components, whose
measurement equals that detection, followed by one trailing group holding
every missed-detection hypothesis across all components. -/
theorem C2_order_by_detection_layout
    (hypo : TaggedWeightedGaussianState → List Detection → Int →
      List SingleDistanceHypothesis)
    (ps : Rat) (comps : List TaggedWeightedGaussianState)
    (dets : List Detection) (ts : Int) :
    (GaussianMixtureHypothesiser.hypothesise hypo ps true comps dets ts).2 =
      (dets.map fun d =>
        (comps.map fun c =>
            hypo (GaussianMixtureHypothesiser.survived ps c) dets ts).flatten.filter
          (fun x => x.measurement == Meas.det d)) ++
      [(comps.map fun c =>
          hypo (GaussianMixtureHypothesiser.survived ps c) dets ts).flatten.filter
        (fun x => x.measurement.isMissed)] := by
  unfold GaussianMixtureHypothesiser.hypothesise
  simp only [if_pos]
  rw [componentLoop_snd_flatten]

/-- C8: the Gaussian-mixture hypothesiser overwrites each caller-owned
component weight with weight times prob_survival before generating that
component hypotheses, and this is the only mutation: every other field of the
overwritten component equals the original. -/
theorem C8_survival_overwrite_only
    (hypo : TaggedWeightedGaussianState → List Detection → Int →
      List SingleDistanceHypothesis)
    (ps : Rat) (obd : Bool) (comps : List TaggedWeightedGaussianState)
    (dets : List Detection) (ts : Int) :
    (GaussianMixtureHypothesiser.hypothesise hypo ps obd comps dets ts).1 =
      comps.map (GaussianMixtureHypothesiser.survived ps) ∧
    ∀ c : TaggedWeightedGaussianState,
      (GaussianMixtureHypothesiser.survived ps c).weight = c.weight * ps ∧
      (GaussianMixtureHypothesiser.survived ps c).state_vector = c.state_vector ∧
      (GaussianMixtureHypothesiser.survived ps c).covar = c.covar ∧
      (GaussianMixtureHypothesiser.survived ps c).tag = c.tag ∧
      (GaussianMixtureHypothesiser.survived ps c).timestamp = c.timestamp := by
  constructor
  · unfold GaussianMixtureHypothesiser.hypothesise
    cases obd <;> simp only [if_pos, if_neg, Bool.false_eq_true] <;>
      exact componentLoop_fst hypo ps dets ts comps
  · intro c
    exact ⟨rfl, rfl, rfl, rfl, rfl⟩

/-- Dividing every entry of a list by a constant divides the sum. -/
theorem list_sum_map_div (L : List Rat) (c : Rat) :
    (L.map (fun x => x / c)).sum = L.sum / c := by
  induction L with
  | nil => simp
  | cons x xs ih => simp [ih, add_div]

/-- Characterisation of one detection-branch iteration on a real-detection
hypothesis: it succeeds, emits the Kalman posterior with the raw weight, keeps
the prediction tag unless it is the birth sentinel 0, in which case it mints
the next fresh tag. -/
theorem hypStep_det (ctx : UpdCtx) (k : Nat) (h : SingleDistanceHypothesis)
    (d : Detection) (hmeas : h.measurement = Meas.det d) :
    GaussianMixtureUpdater.hypStep ctx k h = .ok
      (⟨(ctx.kupdate h).mean, (ctx.kupdate h).covar,
        GaussianMixtureUpdater.rawWeight ctx h,
        if h.prediction.tag = 0 then ctx.fresh k else h.prediction.tag,
        (ctx.kupdate h).timestamp⟩,
       GaussianMixtureUpdater.rawWeight ctx h,
       if h.prediction.tag = 0 then k + 1 else k) := by
  unfold GaussianMixtureUpdater.hypStep GaussianMixtureUpdater.rawWeight
  rw [hmeas]
  by_cases htag : h.prediction.tag = 0 <;> simp [htag]

/-- The inner detection loop on a group of real-detection hypotheses succeeds,
emits one component per hypothesis whose weight is the raw weight, and
accumulates exactly the sum of the raw weights. -/
theorem groupLoop_ok (ctx : UpdCtx) (g : List SingleDistanceHypothesis)
    (hdet : ∀ h ∈ g, h.measurement.isDet = true) :
    ∀ k, ∃ cs k1,
      GaussianMixtureUpdater.groupLoop ctx k g =
        .ok (cs, (g.map (GaussianMixtureUpdater.rawWeight ctx)).sum, k1) ∧
      cs.map (fun c => c.weight) = g.map (GaussianMixtureUpdater.rawWeight ctx) := by
  induction g with
  | nil => intro k; exact ⟨[], k, rfl, rfl⟩
  | cons h hs ih =>
    intro k
    have hd := hdet h (List.mem_cons_self h hs)
    obtain ⟨d, hmeas⟩ : ∃ d, h.measurement = Meas.det d := by
      cases hm : h.measurement with
      | missed t => rw [hm] at hd; simp [Meas.isDet] at hd
      | det d => exact ⟨d, rfl⟩
    obtain ⟨cs, k1, hloop, hweights⟩ :=
      ih (fun x hx => hdet x (List.mem_cons_of_mem h hx))
        (if h.prediction.tag = 0 then k + 1 else k)
    refine ⟨⟨(ctx.kupdate h).mean, (ctx.kupdate h).covar,
      GaussianMixtureUpdater.rawWeight ctx h,
      if h.prediction.tag = 0 then ctx.fresh k else h.prediction.tag,
      (ctx.kupdate h).timestamp⟩ :: cs, k1, ?_, ?_⟩
    · simp only [GaussianMixtureUpdater.groupLoop, hypStep_det ctx k h d hmeas,
        bind, Except.bind, hloop, List.map_cons, List.sum_cons]
    · simp [hweights]

/-- One detection group of the updater on real-detection hypotheses: the final
weight_sum is the clutter density plus the raw weight sum, and every emitted
weight is the corresponding raw weight divided by that weight_sum. -/
theorem processGroup_ok (ctx : UpdCtx) (g : List SingleDistanceHypothesis)
    (hdet : ∀ h ∈ g, h.measurement.isDet = true) :
    ∀ k, ∃ cs k1,
      GaussianMixtureUpdater.processGroup ctx k g =
        .ok (cs, GaussianMixtureUpdater.weightSum ctx g, k1) ∧
      cs.map (fun c => c.weight) =
        (g.map (GaussianMixtureUpdater.rawWeight ctx)).map
          (fun w => w / GaussianMixtureUpdater.weightSum ctx g) := by
  intro k
  obtain ⟨cs, k1, hloop, hweights⟩ := groupLoop_ok ctx g hdet k
  refine ⟨cs.map (fun c =>
    { c with weight := c.weight / GaussianMixtureUpdater.weightSum ctx g }), k1, ?_, ?_⟩
  · simp only [GaussianMixtureUpdater.processGroup, bind, Except.bind, hloop,
      GaussianMixtureUpdater.weightSum]
  · rw [← hweights]
    simp [List.map_map, Function.comp]

/-- The outer detection loop of the updater on by-detection groups of
real-detection hypotheses: it succeeds and the emitted weight sequence is the
concatenation, group by group, of the normalised raw weights. -/
theorem detLoop_ok (ctx : UpdCtx) (gs : List (List SingleDistanceHypothesis))
    (hdet : ∀ g ∈ gs, ∀ h ∈ g, h.measurement.isDet = true) :
    ∀ k stale, ∃ out stale1 k1,
      GaussianMixtureUpdater.detLoop ctx gs k stale = .ok (out, stale1, k1) ∧
      out.map (fun c => c.weight) =
        (gs.map fun g =>
          (g.map (GaussianMixtureUpdater.rawWeight ctx)).map
            (fun w => w / GaussianMixtureUpdater.weightSum ctx g)).flatten := by
  induction gs with
  | nil => intro k stale; exact ⟨[], stale, k, rfl, rfl⟩
  | cons g gs ih =>
    intro k stale
    obtain ⟨cs, k1, hgroup, hweights⟩ :=
      processGroup_ok ctx g (hdet g (List.mem_cons_self g gs)) k
    obtain ⟨out, stale1, k2, hrest, hrestw⟩ :=
      ih (fun x hx => hdet x (List.mem_cons_of_mem g hx)) k1
        (if cs.isEmpty then stale else cs.getLast?)
    refine ⟨cs ++ out, stale1, k2, ?_, ?_⟩
    · simp only [GaussianMixtureUpdater.detLoop, bind, Except.bind, hgroup, hrest]
    · simp [hweights, hrestw]

/-- C1: consuming a by-detection hypothesis list whose detection groups hold
real-detection hypotheses (with an empty trailing missed group), the updater
succeeds; per detection group the weight sum starts at
clutter_spatial_density, each hypothesis contributes the raw weight
prob_of_detection * prediction.weight * q, every component emitted for the
group carries its raw weight divided by the final weight_sum, and in exact
arithmetic the emitted weights of the group sum to
1 - clutter_spatial_density / weight_sum. -/
theorem C1_detection_group_weight_normalisation (ctx : UpdCtx)
    (gs : List (List SingleDistanceHypothesis))
    (hdet : ∀ g ∈ gs, ∀ h ∈ g, h.measurement.isDet = true)
    (hws : ∀ g ∈ gs, GaussianMixtureUpdater.weightSum ctx g ≠ 0) :
    ∃ out, GaussianMixtureUpdater.update ctx (gs ++ [[]]) = .ok out ∧
      out.map (fun c => c.weight) =
        (gs.map fun g =>
          (g.map (GaussianMixtureUpdater.rawWeight ctx)).map
            (fun w => w / GaussianMixtureUpdater.weightSum ctx g)).flatten ∧
      ∀ g ∈ gs,
        ((g.map (GaussianMixtureUpdater.rawWeight ctx)).map
          (fun w => w / GaussianMixtureUpdater.weightSum ctx g)).sum =
        1 - ctx.clutter_spatial_density / GaussianMixtureUpdater.weightSum ctx g := by
  obtain ⟨out, stale1, k1, hloop, hw⟩ := detLoop_ok ctx gs hdet 0 none
  refine ⟨out, ?_, hw, ?_⟩
  · simp only [GaussianMixtureUpdater.update, List.dropLast_concat,
      List.getLast?_concat, bind, Except.bind, hloop]
    rfl
  · intro g hg
    rw [list_sum_map_div]
    have hsum : (g.map (GaussianMixtureUpdater.rawWeight ctx)).sum =
        GaussianMixtureUpdater.weightSum ctx g - ctx.clutter_spatial_density := by
      unfold GaussianMixtureUpdater.weightSum
      ring
    rw [hsum, sub_div, div_self (hws g hg)]

/-- C1 witness: one detection group holding one real-detection hypothesis of
prediction weight 1, detection probability 1/2, clutter density 1 and constant
density 2: the update succeeds, the emitted weight is 1/2, and the group
weights sum to 1 - 1/2. -/
theorem C1_detection_group_weight_normalisation_witness :
    ∃ out, GaussianMixtureUpdater.update uctxEx ([[hypDet 5 1]] ++ [[]]) = .ok out ∧
      out.map (fun c => c.weight) =
        ([[hypDet 5 1]].map fun g =>
          (g.map (GaussianMixtureUpdater.rawWeight uctxEx)).map
            (fun w => w / GaussianMixtureUpdater.weightSum uctxEx g)).flatten ∧
      ∀ g ∈ [[hypDet 5 1]],
        ((g.map (GaussianMixtureUpdater.rawWeight uctxEx)).map
          (fun w => w / GaussianMixtureUpdater.weightSum uctxEx g)).sum =
        1 - uctxEx.clutter_spatial_density /
          GaussianMixtureUpdater.weightSum uctxEx g :=
  C1_detection_group_weight_normalisation uctxEx [[hypDet 5 1]]
    (by decide)
    (by
      intro g hg
      rw [List.mem_singleton] at hg
      subst hg
      simp [GaussianMixtureUpdater.weightSum, GaussianMixtureUpdater.rawWeight,
        hypDet, uctxEx, dEx])

/-- C3: evaluating GaussianMixtureUpdater.update on a by-detection layout
whose trailing missed group holds one birth-tagged hypothesis: the spec says
the tag-0 entry is skipped and every other missed hypothesis is re-emitted
with weight prediction.weight * (1 - prob_of_detection), but the code guards
on the stale detection-branch loop variable (tag 5, not 0) and then multiplies
the hypothesis object itself by the float 1 - prob_of_detection, raising
TypeError instead of emitting anything. -/
theorem C3_missed_branch_raises_type_error :
    GaussianMixtureUpdater.update uctxEx [[hypDet 5 1], [hypMissed 0 1]] =
      .error "TypeError: unsupported operand types for mul: SingleDistanceHypothesis and float" := by
  rfl

/-- C4: with a non-empty component list and an empty detection set, the
hypothesiser (order_by_detection true) returns one trailing group holding
exactly the missed hypothesis of each component, but feeding that layout to
GaussianMixtureUpdater.update raises UnboundLocalError: the missed branch
reads the loop variable of the detection normalisation loop, which never ran. -/
theorem C4_empty_detection_set_step_raises :
    (GaussianMixtureHypothesiser.hypothesise
        (DistanceHypothesiser.hypothesise dctxEx) 1 true [cEx] [] 0).2 =
      [[DistanceHypothesiser.missedHypothesis dctxEx
          (GaussianMixtureHypothesiser.survived 1 cEx) 0]] ∧
    GaussianMixtureUpdater.update uctxEx
        [[DistanceHypothesiser.missedHypothesis dctxEx
            (GaussianMixtureHypothesiser.survived 1 cEx) 0]] =
      .error "UnboundLocalError: local variable component referenced before assignment" := by
  constructor <;> rfl

/-- C5: evaluating GaussianMixtureUpdater.update on a layout whose missed
group starts with a birth-tagged (tag 0) hypothesis: the claim says the
birth-tagged entry is skipped and the others re-emitted with the parent tag,
but the code decides the skip from the stale detection-branch component
(here the reminted tag 100) and then raises TypeError on the weight
expression, so no missed component is ever produced. -/
theorem C5_missed_branch_tags_never_produced :
    GaussianMixtureUpdater.update uctxEx
        [[hypDet 0 1], [hypMissed 0 1, hypMissed 7 1]] =
      .error "TypeError: unsupported operand types for mul: SingleDistanceHypothesis and float" := by
  rfl

/-- Evaluating the shadowing tracks property diverges for every recursion
budget: each level immediately re-enters itself, so Python reports
RecursionError. -/
theorem tracksProperty_recursion_error (store : List (Nat × Track)) :
    ∀ fuel, GaussianMixtureMultiTargetTracker.tracksProperty store fuel =
      .error "RecursionError: maximum recursion depth exceeded" := by
  intro fuel
  induction fuel with
  | zero => rfl
  | succ n ih =>
    simp only [GaussianMixtureMultiTargetTracker.tracksProperty, bind,
      Except.bind, ih]

/-- C6: the track-maintenance termination pass never reaches the membership
test.  The claim says end_tracks deactivates exactly the tracks whose tag is
absent from the current component tags, deciding by set membership without
mutating the tag collection; the code instead iterates self.tracks, the
self-referential property that shadows the track dictionary, and raises
RecursionError for every mixture, track store and recursion budget (and its
loop body would additionally mutate component_tags with remove on every
iteration). -/
theorem C6_end_tracks_raises_recursion_error
    (mixture : List TaggedWeightedGaussianState)
    (store : List (Nat × Track)) (fuel : Nat) :
    GaussianMixtureMultiTargetTracker.end_tracks mixture store fuel =
      .error "RecursionError: maximum recursion depth exceeded" := by
  simp only [GaussianMixtureMultiTargetTracker.end_tracks, bind, Except.bind,
    tracksProperty_recursion_error store fuel]

/-- C7: no iteration of GMPHDTargetTracker.tracks_gen ever yields a triple.
The claim says each iteration yields (time, active tracks, sum of component
weights); in the code the statement tracks = self.tracks() calls the
generator object returned by the shadowing tracks property and raises
TypeError before the yield (and the updater call before it already raises on
any non-empty missed group), for every context, mixture, store and detection
batch. -/
theorem C7_tracks_gen_step_never_yields (ctx : TrackerCtx)
    (birth : TaggedWeightedGaussianState)
    (mixture : List TaggedWeightedGaussianState)
    (store : List (Nat × Track)) (time : Int) (dets : List Detection) :
    ∃ e, GMPHDTargetTracker.tracksGenStep ctx birth mixture store time dets =
      .error e := by
  unfold GMPHDTargetTracker.tracksGenStep
  cases h : GaussianMixtureUpdater.update ctx.upd
      (ctx.hypothesise (mixture ++ [{ birth with timestamp := time }]) dets
        time) with
  | error e =>
    refine ⟨e, ?_⟩
    simp [bind, Except.bind, h]
  | ok v =>
    refine ⟨"TypeError: generator object is not callable", ?_⟩
    simp [bind, Except.bind, h, GMPHDTargetTracker.callTracksProperty]
